import Mathlib

/-
Verification of the ddev-agents tool-call bridge (src/.agents/bridge.py and
src/.agents/executors.py) against its specification.

The Python code is shallowly embedded:
- Python values (strings, ints, bools, None, lists, dicts) become the `Value`
  inductive; dicts are association lists with first-occurrence lookup.
- External effects (docker inspect, docker exec / subprocess runs, Python
  `re.search`, HTTP POST) become oracle functions bundled in an `Env` record;
  each oracle returns what the corresponding side-effecting call would have
  produced, so the control flow of the Python functions is reproduced exactly.
- Python exceptions become the `PyExc` inductive carried in `Except`;
  `pyExcStr` is Python `str(e)` on those exceptions.
-/

set_option autoImplicit false

namespace DdevAgents

/-- Embedded Python value: str, int, bool, None, list, dict. -/
inductive Value where
  | str (s : String)
  | num (n : Int)
  | bool (b : Bool)
  | none
  | list (xs : List Value)
  | dict (kvs : List (String × Value))

/-- Python truthiness (`if value:`). -/
def pyTruthy : Value → Bool
  | .str s => s ≠ ""
  | .num n => n ≠ 0
  | .bool b => b
  | .none => false
  | .list xs => ¬ xs.isEmpty
  | .dict kvs => ¬ kvs.isEmpty

def joinComma (l : List String) : String := String.intercalate ", " l

mutual
/-- Python `repr` on embedded values (string escaping inside repr is not
modelled; configuration strings here contain no quotes). -/
def pyRepr : Value → String
  | .str s => "\x27" ++ s ++ "\x27"
  | .num n => toString n
  | .bool true => "True"
  | .bool false => "False"
  | .none => "None"
  | .list xs => "[" ++ joinComma (pyReprList xs) ++ "]"
  | .dict kvs => "\x7b" ++ joinComma (pyReprDict kvs) ++ "\x7d"

def pyReprList : List Value → List String
  | [] => []
  | v :: vs => pyRepr v :: pyReprList vs

def pyReprDict : List (String × Value) → List String
  | [] => []
  | (k, v) :: kvs => ("\x27" ++ k ++ "\x27: " ++ pyRepr v) :: pyReprDict kvs
end

/-- Python `str` on embedded values. -/
def pyStr : Value → String
  | .str s => s
  | v => pyRepr v

/-- Python type name of a value (for attribute-error messages). -/
def pyTypeName : Value → String
  | .str _ => "str"
  | .num _ => "int"
  | .bool _ => "bool"
  | .none => "NoneType"
  | .list _ => "list"
  | .dict _ => "dict"

mutual
/-- Python `==` on embedded values (used by list membership `in`). -/
def valueBEq : Value → Value → Bool
  | .str a, .str b => a == b
  | .num a, .num b => a == b
  | .bool a, .bool b => a == b
  | .none, .none => true
  | .list xs, .list ys => valueBEqList xs ys
  | .dict xs, .dict ys => valueBEqDict xs ys
  | _, _ => false

def valueBEqList : List Value → List Value → Bool
  | [], [] => true
  | x :: xs, y :: ys => valueBEq x y && valueBEqList xs ys
  | _, _ => false

def valueBEqDict : List (String × Value) → List (String × Value) → Bool
  | [], [] => true
  | (k1, v1) :: xs, (k2, v2) :: ys =>
      k1 == k2 && valueBEq v1 v2 && valueBEqDict xs ys
  | _, _ => false
end

/-- `d.get(k)` / `k in d` on a Python dict, modelled as first-occurrence
lookup in an association list. -/
def dictGet (kvs : List (String × Value)) (k : String) : Option Value :=
  match kvs with
  | [] => Option.none
  | (k', v) :: rest => if k' = k then some v else dictGet rest k

/-- Python dict merge `{**d, **a}`: keys of `d` in order (values overridden
by `a` where present), then keys of `a` not in `d`, in order. -/
def dictMerge (d a : List (String × Value)) : List (String × Value) :=
  d.map (fun kv => (kv.1, (dictGet a kv.1).getD kv.2)) ++
    a.filter (fun kv => (dictGet d kv.1).isNone)

/-- Python `s or default` for an optional string (None and "" are falsy). -/
def pyOrStr : Option String → String → String
  | some s, d => if s = "" then d else s
  | Option.none, d => d

/-- Python `s.startswith(pre)` (character-level prefix test). -/
def startswith (s pre : String) : Bool :=
  pre.data.isPrefixOf s.data

/-- Fuelled character-level splitter behind `pySplit` (each recursive call
consumes at least one character for a non-empty separator). -/
def splitCharsAux (sep : List Char) : Nat → List Char → List (List Char)
  | _, [] => [[]]
  | 0, l => [l]
  | fuel + 1, c :: rest =>
    if sep.isPrefixOf (c :: rest) then
      [] :: splitCharsAux sep fuel ((c :: rest).drop sep.length)
    else
      match splitCharsAux sep fuel rest with
      | [] => [[c]]
      | seg :: segs => (c :: seg) :: segs

/-- Python `s.split(sep)` for a non-empty separator. -/
def pySplit (s sep : String) : List String :=
  (splitCharsAux sep.data (s.data.length + 1) s.data).map String.mk

/-- Python `s.split(sep, maxsplit)` for a non-empty separator. -/
def splitOnN (s sep : String) (n : Nat) : List String :=
  let parts := pySplit s sep
  if parts.length ≤ n + 1 then parts
  else parts.take n ++ [String.intercalate sep (parts.drop n)]

/-- Python `s.strip()` (whitespace strip on both ends). -/
def pyStrip (s : String) : String :=
  String.mk
    (((s.data.dropWhile Char.isWhitespace).reverse.dropWhile
        Char.isWhitespace).reverse)

/-- Outcome of the HTTP POST performed by the remote proxy: a JSON body on
success, or one of the exception classes caught in `MCPServerToolExecutor`. -/
inductive HttpOutcome where
  | ok (body : Value)
  | timeout
  | httpError (msg : String)
  | exn (msg : String)

/-- Oracles for the external effects of the bridge.  `inspect` returns the
stripped `com.ddev.site-name` label printed by `docker inspect` (`none` when
the inspect subprocess exits non-zero or raises).  `run` returns
`(stdout, stderr, returncode)` of a full `docker exec` argv under a user, or
an exception message.  `reSearch` is Python `re.search(pattern, value)`
viewed as a boolean.  `post` is the HTTP POST of a JSON payload.
`hostRoot`/`containerRoot` are the `HOST_PROJECT_ROOT` and
`CONTAINER_PROJECT_ROOT` environment variables (`none` = unset). -/
structure Env where
  inspect : String → Option String
  run : List String → String → Except String (String × String × Int)
  reSearch : Value → String → Bool
  post : Value → HttpOutcome
  hostRoot : Option String
  containerRoot : Option String

/-- Python exceptions raised inside `DockerExecutor.execute` and
`str.format`, one constructor per distinct raise site. -/
inductive PyExc where
  | invalidCommand
  | notAString (i : Nat)
  | dangerousCharacter (i : Nat)
  | permissionDenied (container site project : String)
  | executionError (msg : String)
  | formatError (msg : String)
deriving DecidableEq

/-- Python `str(e)` for the exceptions above (the message each raise site
interpolates). -/
def pyExcStr : PyExc → String
  | .invalidCommand => "Command must be non-empty list"
  | .notAString i => "Argument " ++ toString i ++ " must be string"
  | .dangerousCharacter i => "Dangerous character in argument " ++ toString i
  | .permissionDenied c s p =>
      "Container \x27" ++ c ++ "\x27 belongs to \x27" ++ s ++ "\x27, not \x27" ++ p ++ "\x27"
  | .executionError m => m
  | .formatError m => m

namespace DockerExecutor

/-- The dangerous-character list of `DockerExecutor.execute`. -/
def dangerous : List Char := [';', '|', '&', '>', '<', '$', Char.ofNat 96, '\n', '\r']

/-- Python `any(c in arg for c in dangerous)` (each dangerous entry is a
single character, so substring membership is character membership). -/
def containsDangerous (s : String) : Bool :=
  dangerous.any (fun c => s.data.contains c)

/-- The validation loop of `DockerExecutor.execute`: each element must be a
string, and elements at index < 2 must be free of dangerous characters.
Returns the first exception raised, if any. -/
def validateArgs : Nat → List Value → Option PyExc
  | _, [] => Option.none
  | i, v :: rest =>
    match v with
    | .str s =>
      if i < 2 ∧ containsDangerous s then some (.dangerousCharacter i)
      else validateArgs (i + 1) rest
    | _ => some (.notAString i)

/-- Result of one `DockerExecutor.execute` call: `ran` records the full
subprocess argv and user when the docker-exec stage was reached (so
`ran = none` means the command was never executed); `warned` records the
fail-open warning logged when the ownership label could not be read. -/
structure DockerResult where
  ran : Option (List String × String)
  warned : Bool
  result : Except PyExc (String × String × Int)

/-- The execution stage of `DockerExecutor.execute` (after validation and the
ownership check): build the `docker exec` argv and run it. -/
def runPhase (env : Env) (cont user : String) (command : List Value)
    (warned : Bool) : DockerResult :=
  let full := ["docker", "exec", "-u", user, cont] ++ command.map pyStr
  match env.run full user with
  | .ok r => ⟨some (full, user), warned, .ok r⟩
  | .error msg => ⟨some (full, user), warned, .error (.executionError msg)⟩

/-- `DockerExecutor.execute(command, container=..., user=...)` for a bridge
bound to `project`.  The Python `command` parameter is typed `list`; the
not-a-list branch of `Command must be non-empty list` is outside the model. -/
def execute (env : Env) (project : String) (command : List Value)
    (container : Option String) (user : String) : DockerResult :=
  let cont := pyOrStr container ("ddev-" ++ project ++ "-web")
  if command.isEmpty then ⟨Option.none, false, .error .invalidCommand⟩
  else
    match validateArgs 0 command with
    | some e => ⟨Option.none, false, .error e⟩
    | Option.none =>
      match env.inspect cont with
      | Option.none => runPhase env cont user command true
      | some site =>
        if project ≠ "default-project" ∧ site ≠ project then
          ⟨Option.none, false, .error (.permissionDenied cont site project)⟩
        else runPhase env cont user command false

end DockerExecutor

/-- `CommandToolExecutor` state (executors.py).  `user` is the configured
user string from the tool YAML (the registry constructs it with default
"www-data"; Python `None` corresponds to "" under `not self.user`).
`validation_rules` keeps raw YAML entries: non-dict entries are skipped by
`_validate_rules`, so they stay `Value`s. -/
structure CommandToolExecutor where
  command_template : String
  container : Option String
  user : String
  default_args : List (String × Value)
  disallowed_commands : List Value
  shell : String := "/bin/bash"
  validation_rules : List Value

namespace CommandToolExecutor

/-- `CommandToolExecutor._validate_rules`: first matching rule rejects with
its message (a raw `Value`, since the YAML message is interpolated with
`str` only later). -/
def validate_rules (reSearch : Value → String → Bool) (rules : List Value)
    (value : String) : Bool × Value :=
  match rules with
  | [] => (true, .str "")
  | r :: rest =>
    match r with
    | .dict kvs =>
      let pattern := (dictGet kvs "pattern").getD (.str "")
      let message := (dictGet kvs "message").getD
        (.str ("Validation failed for pattern: " ++ pyStr pattern))
      if pyTruthy pattern ∧ reSearch pattern value then (false, message)
      else validate_rules reSearch rest value
    | _ => validate_rules reSearch rest value

/-- The target path parsed from an `auto:uid-from-path[:path]` user string
(`_resolve_user`, lines 70-76 of executors.py). -/
def resolveUserTarget (user : String) : String :=
  let s1 := (pySplit user "auto").getD 1 ""
  if (pySplit s1 ":").length > 1 then
    let parts := splitOnN user ":" 2
    if parts.length > 2 then parts.getD 2 "" else "/var/www/html"
  else "/var/www/html"

/-- `CommandToolExecutor._resolve_user`: resolve `auto:uid-from-path` by
running `stat -c %u <path>` in the container as root through
`DockerExecutor.execute`; any exception or non-zero exit falls back to
"www-data". -/
def resolve_user (env : Env) (project : String) (self : CommandToolExecutor) :
    String :=
  if self.user = "" ∨ ¬ startswith self.user "auto:uid-from-path" then self.user
  else
    let target := resolveUserTarget self.user
    let r := DockerExecutor.execute env project
      [.str "/bin/sh", .str "-c", .str ("stat -c %u " ++ target)]
      self.container "root"
    match r.result with
    | .ok (stdout, _, rc) => if rc = 0 then pyStrip stdout else "www-data"
    | .error _ => "www-data"

mutual
/-- `CommandToolExecutor._normalize_paths` on a single value: a string that
starts with `hostRoot + "/"` is rewritten to `containerRoot` plus the
remainder; lists and dict values are walked recursively; anything else is
returned unchanged. -/
def normalize_paths (hostRoot containerRoot : String) : Value → Value
  | .str s =>
    if startswith s (hostRoot ++ "/") then
      .str (containerRoot ++ s.drop hostRoot.length)
    else .str s
  | .list xs => .list (normalizePathsList hostRoot containerRoot xs)
  | .dict kvs => .dict (normalizePathsDict hostRoot containerRoot kvs)
  | v => v

def normalizePathsList (hostRoot containerRoot : String) :
    List Value → List Value
  | [] => []
  | v :: vs =>
    normalize_paths hostRoot containerRoot v ::
      normalizePathsList hostRoot containerRoot vs

def normalizePathsDict (hostRoot containerRoot : String) :
    List (String × Value) → List (String × Value)
  | [] => []
  | (k, v) :: kvs =>
    (k, normalize_paths hostRoot containerRoot v) ::
      normalizePathsDict hostRoot containerRoot kvs
end

/-- The merged argument mapping of `CommandToolExecutor.execute`
(`{**self.default_args, **arguments}`). -/
def effectiveArgs (self : CommandToolExecutor)
    (arguments : List (String × Value)) : List (String × Value) :=
  dictMerge self.default_args arguments

/-- Word character of the regex class `\w` (placeholder names). -/
def isWordChar (c : Char) : Bool := c.isAlphanum || c = '_'

/-- Fuelled scan implementing `re.findall(r&-placeholder-pattern, template)`:
at each position, a literal brace, one or more word characters, and a
closing brace is a match; otherwise scanning advances one character. -/
def findPhAux : Nat → List Char → List String
  | 0, _ => []
  | _, [] => []
  | fuel + 1, c :: rest =>
    if c = '{' then
      let word := rest.takeWhile isWordChar
      match rest.dropWhile isWordChar with
      | '}' :: tail =>
        if word.isEmpty then findPhAux fuel rest
        else String.mk word :: findPhAux fuel tail
      | _ => findPhAux fuel rest
    else findPhAux fuel rest

/-- The `{name}`-style placeholders of a template, in scan order, with
repetitions (`re.findall` in `validate_arguments`). -/
def placeholdersOf (template : String) : List String :=
  findPhAux template.data.length template.data

/-- Fuelled interpreter for Python `str.format(**args)` restricted to the
plain `{name}` replacement fields used by the tool configs: `{{`/`}}`
escapes, a missing key raises `KeyError`, an unmatched brace raises
`ValueError`.  Conversion/format-spec suffixes (`!r`, `:spec`) are parsed
off the key but their formatting effect is not modelled. -/
def formatAux (args : List (String × Value)) : Nat → List Char →
    Except PyExc String
  | 0, _ => .ok ""
  | _, [] => .ok ""
  | fuel + 1, l =>
    match l with
    | [] => .ok ""
    | '{' :: '{' :: rest2 => (formatAux args fuel rest2).map (fun s => "\x7b" ++ s)
    | '{' :: rest =>
      let field := rest.takeWhile (fun c => (c != '}') && (c != '{'))
      match rest.dropWhile (fun c => (c != '}') && (c != '{')) with
      | '}' :: tail =>
        let key := String.mk (field.takeWhile (fun c => (c != ':') && (c != '!')))
        match dictGet args key with
        | some v => (formatAux args fuel tail).map (fun s => pyStr v ++ s)
        | Option.none => .error (.formatError ("KeyError: " ++ key))
      | _ => .error (.formatError "Single \x27\x7b\x27 encountered in format string")
    | '}' :: '}' :: rest2 => (formatAux args fuel rest2).map (fun s => "\x7d" ++ s)
    | '}' :: _ => .error (.formatError "Single \x27\x7d\x27 encountered in format string")
    | c :: rest => (formatAux args fuel rest).map (fun s => String.mk [c] ++ s)

/-- `self.command_template.format(**merged_args)`.  The error side carries
either the `KeyError` (whose key `execute` reports as a missing argument) or
a format `ValueError` (which propagates to the dispatch boundary). -/
def formatTemplate (template : String) (args : List (String × Value)) :
    Except PyExc String :=
  formatAux args template.data.length template.data

/-- Whether `formatTemplate` failed with `KeyError` on `key` (the only
exception `CommandToolExecutor.execute` catches around `.format`). -/
def formatKeyError : PyExc → Option String
  | .formatError m =>
    if startswith m "KeyError: " then some (m.drop 10) else Option.none
  | _ => Option.none

/-- `CommandToolExecutor.execute`: resolve user, merge and normalize
arguments, apply the blacklist, render the template (KeyError becomes a
textual missing-argument result), run post-render validation rules, then
delegate `[shell, "-c", cmd]` to `DockerExecutor.execute`.  The error side
of the result is an exception escaping to the dispatch boundary. -/
def execute (env : Env) (project : String) (self : CommandToolExecutor)
    (arguments : List (String × Value)) : Except PyExc String :=
  let user := resolve_user env project self
  let merged := normalizePathsDict (env.hostRoot.getD "/workspace")
    (env.containerRoot.getD "/var/www/html") (effectiveArgs self arguments)
  let blocked : Option Value :=
    match dictGet merged "command" with
    | some c => if self.disallowed_commands.any (fun d => valueBEq d c) then some c
                else Option.none
    | Option.none => Option.none
  match blocked with
  | some c => .ok ("Error: Command \x27" ++ pyStr c ++ "\x27 is not allowed")
  | Option.none =>
    match formatTemplate self.command_template merged with
    | .error e =>
      match formatKeyError e with
      | some key => .ok ("Error: Missing required argument \x27" ++ key ++ "\x27")
      | Option.none => .error e
    | .ok cmd_str =>
      let v := validate_rules env.reSearch self.validation_rules cmd_str
      if ¬ v.1 then .ok ("Validation error: " ++ pyStr v.2)
      else
        let r := DockerExecutor.execute env project
          [.str self.shell, .str "-c", .str cmd_str] self.container user
        match r.result with
        | .error e => .error e
        | .ok (stdout, stderr, rc) =>
          if rc ≠ 0 then
            .ok ("Execution failed (code " ++ toString rc ++ ")\nStderr: " ++ stderr)
          else .ok (if stdout ≠ "" then pyStrip stdout else "")

/-- Required placeholders of `validate_arguments`: template placeholders not
satisfiable by configured defaults. -/
def requiredOf (self : CommandToolExecutor) : List String :=
  (placeholdersOf self.command_template).filter
    (fun p => (dictGet self.default_args p).isNone)

/-- Missing placeholders of `validate_arguments`: required placeholders
absent from the caller arguments, deduplicated (Python uses sets, whose
iteration order is unspecified; the model fixes one order, and the claim
about which names are reported is stated by membership). -/
def missingOf (self : CommandToolExecutor)
    (arguments : List (String × Value)) : List String :=
  ((requiredOf self).filter (fun p => (dictGet arguments p).isNone)).dedup

/-- `CommandToolExecutor.validate_arguments`: pattern rules against
`str(arguments)` first, then the required-placeholder check. -/
def validate_arguments (reSearch : Value → String → Bool)
    (self : CommandToolExecutor) (arguments : List (String × Value)) :
    Bool × Value :=
  let v := validate_rules reSearch self.validation_rules (pyStr (.dict arguments))
  if ¬ v.1 then (false, v.2)
  else
    let missing := missingOf self arguments
    if missing.isEmpty then (true, .str "")
    else (false, .str ("Missing: " ++ joinComma missing))

end CommandToolExecutor

/-- `MCPServerToolExecutor` state (auth fields only shape the HTTP headers,
which live behind the `post` oracle, so they are not carried here). -/
structure MCPServerToolExecutor where
  server_url : String
  forward_args : Bool := true
  timeout : Int := 10

namespace MCPServerToolExecutor

/-- Python truthiness of the `tool_name` parameter (`None` or "" falsy). -/
def toolNameTruthy : Option String → Bool
  | some s => s ≠ ""
  | Option.none => false

/-- The request payload chosen by `MCPServerToolExecutor.execute`:
tools/call envelope when a truthy tool name is known; else a direct JSON-RPC
request when the arguments carry a truthy `method` key; else the raw
arguments (or an empty body when forwarding is disabled). -/
def payloadFor (self : MCPServerToolExecutor)
    (arguments : List (String × Value)) (tool_name : Option String) : Value :=
  let methodFromArgs := dictGet arguments "method"
  if toolNameTruthy tool_name then
    .dict [("jsonrpc", .str "2.0"), ("method", .str "tools/call"),
           ("params", .dict [("name", .str (tool_name.getD "")),
                             ("arguments", .dict arguments)]),
           ("id", .num 1)]
  else
    match methodFromArgs with
    | some m =>
      if pyTruthy m then
        .dict [("jsonrpc", .str "2.0"), ("method", m),
               ("params", (dictGet arguments "params").getD (.dict [])),
               ("id", .num 1)]
      else if self.forward_args then .dict arguments else .dict []
    | Option.none => if self.forward_args then .dict arguments else .dict []

/-- Response extraction of `MCPServerToolExecutor.execute` (lines 283-297):
`result` key first, then the `text` of the first entry of a non-empty
`content` list, then a formatted `error`, then the stringified body.  The
error side is the message of an `AttributeError` raised when `.get` is
called on a non-dict; the surrounding `try` converts it to text. -/
def extractResponse (body : Value) : Except String String :=
  match body with
  | .dict kvs =>
    match dictGet kvs "result" with
    | some r => .ok (pyStr r)
    | Option.none =>
      let content := (dictGet kvs "content").getD (.list [])
      match content with
      | .list (c :: _) =>
        match c with
        | .dict ckvs =>
          .ok (pyStr ((dictGet ckvs "text").getD (.str (pyStr body))))
        | other =>
          .error ("\x27" ++ pyTypeName other ++
            "\x27 object has no attribute \x27get\x27")
      | _ =>
        match dictGet kvs "error" with
        | some err =>
          match err with
          | .dict ekvs =>
            .ok ("RPC Error: " ++
              pyStr ((dictGet ekvs "message").getD (.str (pyStr err))))
          | other =>
            .error ("\x27" ++ pyTypeName other ++
              "\x27 object has no attribute \x27get\x27")
        | Option.none => .ok (pyStr body)
  | v => .ok (pyStr v)

/-- `MCPServerToolExecutor.execute(arguments, tool_name=...)`: POST the
selected payload and extract a textual result; every failure class is
converted to a text string, so the function is total into `String`. -/
def execute (env : Env) (self : MCPServerToolExecutor)
    (arguments : List (String × Value)) (tool_name : Option String) : String :=
  match env.post (payloadFor self arguments tool_name) with
  | .ok body =>
    match extractResponse body with
    | .ok s => s
    | .error m => "Error: " ++ m
  | .timeout => "Request timeout after " ++ toString self.timeout ++ "s"
  | .httpError e => "HTTP error: " ++ e
  | .exn e => "Error: " ++ e

end MCPServerToolExecutor

/-- An executor bound to a tool name (the two concrete `BaseExecutor`
subclasses). -/
inductive Executor where
  | command (c : CommandToolExecutor)
  | mcpServer (m : MCPServerToolExecutor)

namespace ToolRegistry

/-- `ToolRegistry` state used by `execute_tool`: the project binding, the
tool-config table (for `_remote_tool_name`), and the name → executor map. -/
structure Registry where
  project : String
  tools : List (String × List (String × Value))
  executors : List (String × Executor)

/-- Lookup in the `executors` dict. -/
def lookupExec (reg : Registry) (name : String) : Option Executor :=
  (reg.executors.find? (fun kv => kv.1 == name)).map (fun kv => kv.2)

/-- `self.tools.get(name, {})`. -/
def lookupConfig (reg : Registry) (name : String) : List (String × Value) :=
  ((reg.tools.find? (fun kv => kv.1 == name)).map (fun kv => kv.2)).getD []

/-- The `validate_arguments` hook of the bound executor (both executor
classes implement it; the remote proxy's is trivially true). -/
def validateOf (env : Env) (ex : Executor)
    (arguments : List (String × Value)) : Bool × Value :=
  match ex with
  | .command c =>
    CommandToolExecutor.validate_arguments env.reSearch c arguments
  | .mcpServer _ => (true, .str "")

/-- The truthy `_remote_tool_name` recorded for a discovered remote tool
(remote names recorded from discovery are strings). -/
def remoteNameOf (cfg : List (String × Value)) : Option String :=
  match dictGet cfg "_remote_tool_name" with
  | some (.str r) => if r ≠ "" then some r else Option.none
  | _ => Option.none

/-- `ToolRegistry.execute_tool`: unknown tool → textual result; validation
failure → textual result without executing; otherwise run the executor,
converting any escaped exception to `"Error: " + str(e)`.  The second
component records whether the bound executor's `execute` was invoked. -/
def execute_tool (env : Env) (reg : Registry) (name : String)
    (arguments : List (String × Value)) : String × Bool :=
  match lookupExec reg name with
  | Option.none => ("Error: Unknown tool \x27" ++ name ++ "\x27", false)
  | some ex =>
    let cfg := lookupConfig reg name
    let v := validateOf env ex arguments
    if ¬ v.1 then ("Validation error: " ++ pyStr v.2, false)
    else
      match ex with
      | .mcpServer m =>
        (MCPServerToolExecutor.execute env m arguments (remoteNameOf cfg), true)
      | .command c =>
        match CommandToolExecutor.execute env reg.project c arguments with
        | .ok s => (s, true)
        | .error e => ("Error: " ++ pyExcStr e, true)

end ToolRegistry

/-! ## Concrete environments and executors for witnesses -/

/-- A concrete environment: label lookup fails, every subprocess succeeds
with stdout "1000\n", no validation-rule pattern matches, HTTP returns an
empty JSON object. -/
def env0 : Env :=
  { inspect := fun _ => Option.none,
    run := fun _ _ => .ok ("1000\n", "", 0),
    reSearch := fun _ _ => false,
    post := fun _ => .ok (.dict []),
    hostRoot := Option.none,
    containerRoot := Option.none }

/-- A concrete environment whose label lookup succeeds with the label
"othersite". -/
def env1 : Env :=
  { env0 with inspect := fun _ => some "othersite" }

/-- A concrete command tool: `echo {x}` with default `x = "ok"`. -/
def cte0 : CommandToolExecutor :=
  { command_template := "echo \x7bx\x7d", container := Option.none,
    user := "www-data", default_args := [("x", .str "ok")],
    disallowed_commands := [], validation_rules := [] }

/-- A concrete command tool whose user is the bare `auto:uid-from-path`
directive. -/
def cte1 : CommandToolExecutor :=
  { command_template := "x", container := Option.none,
    user := "auto:uid-from-path", default_args := [],
    disallowed_commands := [], validation_rules := [] }

/-- A concrete registry binding tool "sh" to `cte0` under project "p". -/
def reg1 : ToolRegistry.Registry :=
  { project := "p", tools := [], executors := [("sh", .command cte0)] }

/-! ## Claims -/

section Claims

open DockerExecutor

theorem validateArgs_map_str_ge_two (args : List String) (i : Nat) (h : 2 ≤ i) :
    validateArgs i (args.map Value.str) = Option.none := by
  induction args generalizing i with
  | nil => rfl
  | cons a rest ih =>
    simp only [List.map, validateArgs]
    rw [if_neg]
    · exact ih (i + 1) (Nat.le_succ_of_le h)
    · rintro ⟨hi, _⟩
      omega

theorem runPhase_result_not_dangerous (env : Env) (cont user : String)
    (command : List Value) (warned : Bool) (j : Nat) :
    (runPhase env cont user command warned).result ≠
      .error (.dangerousCharacter j) := by
  unfold runPhase
  cases h : env.run ("docker" :: "exec" :: "-u" :: user :: cont ::
      List.map pyStr command) user <;> simp [h]

theorem execute_result_not_dangerous (env : Env) (project user : String)
    (container : Option String) (command : List Value)
    (hv : validateArgs 0 command = Option.none) (j : Nat) :
    (DockerExecutor.execute env project command container user).result ≠
      .error (.dangerousCharacter j) := by
  unfold DockerExecutor.execute
  by_cases he : command.isEmpty
  · simp [he]
  · simp only [Bool.not_eq_true] at he
    simp only [he, Bool.false_eq_true, if_false, hv]
    cases hI : env.inspect (pyOrStr container ("ddev-" ++ project ++ "-web")) with
    | none => exact runPhase_result_not_dangerous _ _ _ _ _ _
    | some site =>
      by_cases hc : project ≠ "default-project" ∧ site ≠ project
      · simp [hc]
      · simp only [if_neg hc]
        exact runPhase_result_not_dangerous _ _ _ _ _ _

/-- C1: for every argv vector handed to `DockerExecutor.execute`, a dangerous
character (`; | & > < $ backtick newline carriage-return`) in the element at
index 0 or 1 makes the call fail with the DangerousCharacter ValueError
before any command runs, while the same characters at any index ≥ 2 never
cause that failure when indices 0 and 1 are clean. -/
theorem C1_dangerous_character_position_policy
    (env : Env) (project user : String) (container : Option String)
    (args : List String) :
    ((∃ i, i < 2 ∧ i < args.length ∧ containsDangerous (args.getD i "")) →
      ∃ j, (DockerExecutor.execute env project (args.map Value.str) container
              user).result = .error (.dangerousCharacter j) ∧
        (DockerExecutor.execute env project (args.map Value.str) container
            user).ran = Option.none) ∧
    ((∀ i, i < 2 → i < args.length → ¬ containsDangerous (args.getD i "")) →
      ∀ j, (DockerExecutor.execute env project (args.map Value.str) container
              user).result ≠ .error (.dangerousCharacter j)) := by
  constructor
  · rintro ⟨i, hi2, hlen, hdang⟩
    cases args with
    | nil => simp at hlen
    | cons a rest =>
      by_cases hda : containsDangerous a
      · exact ⟨0, by simp [DockerExecutor.execute, validateArgs, hda]⟩
      · have hi1 : i = 1 := by
          interval_cases i
          · exact absurd hdang (by simpa using hda)
          · rfl
        subst hi1
        cases rest with
        | nil => simp at hlen
        | cons b rest2 =>
          have hdb : containsDangerous b = true := by simpa using hdang
          exact ⟨1, by simp [DockerExecutor.execute, validateArgs, hda, hdb]⟩
  · intro hclean j
    apply execute_result_not_dangerous
    cases args with
    | nil => rfl
    | cons a rest =>
      have hda : ¬ containsDangerous a = true := by
        simpa using hclean 0 (by omega) (by simp)
      cases rest with
      | nil => simp [validateArgs, hda]
      | cons b rest2 =>
        have hdb : ¬ containsDangerous b = true := by
          simpa using hclean 1 (by omega) (by simp)
        have h2 := validateArgs_map_str_ge_two rest2 2 le_rfl
        simp [validateArgs, hda, hdb, h2]

/-- Witness for C1 on the concrete argv `["bash", "-c;"]`. -/
theorem C1_witness :
    (∃ i, i < 2 ∧ i < (["bash", "-c;"] : List String).length ∧
      containsDangerous ((["bash", "-c;"] : List String).getD i "")) ∧
    ∃ j, (DockerExecutor.execute env0 "p"
            ((["bash", "-c;"] : List String).map Value.str) Option.none
            "www-data").result = .error (.dangerousCharacter j) ∧
      (DockerExecutor.execute env0 "p"
          ((["bash", "-c;"] : List String).map Value.str) Option.none
          "www-data").ran = Option.none :=
  ⟨⟨1, by decide, by decide, by decide⟩,
    (C1_dangerous_character_position_policy env0 "p" "www-data" Option.none
        ["bash", "-c;"]).1 ⟨1, by decide, by decide, by decide⟩⟩

theorem runPhase_ran_warned (env : Env) (cont user : String)
    (command : List Value) (warned : Bool) :
    (runPhase env cont user command warned).warned = warned ∧
    (runPhase env cont user command warned).ran.isSome = true := by
  unfold runPhase
  cases h : env.run ("docker" :: "exec" :: "-u" :: user :: cont ::
      List.map pyStr command) user <;> simp [h]

/-- C2: for every validated call to `DockerExecutor.execute`, if the
site-name label is read successfully, differs from the bound project, and
the project is not the sentinel "default-project", the call fails with
PermissionDenied and no command is executed; if the label lookup fails, the
call logs a warning and proceeds to execution (fail-open). -/
theorem C2_ownership_check_fail_closed_and_fail_open
    (env : Env) (project user : String) (container : Option String)
    (command : List Value) (hne : command ≠ [])
    (hv : validateArgs 0 command = Option.none) :
    (∀ site,
      env.inspect (pyOrStr container ("ddev-" ++ project ++ "-web")) = some site →
      site ≠ project → project ≠ "default-project" →
      DockerExecutor.execute env project command container user =
        ⟨Option.none, false,
          .error (.permissionDenied
            (pyOrStr container ("ddev-" ++ project ++ "-web")) site project)⟩) ∧
    (env.inspect (pyOrStr container ("ddev-" ++ project ++ "-web")) = Option.none →
      (DockerExecutor.execute env project command container user).warned = true ∧
      (DockerExecutor.execute env project command container user).ran.isSome
        = true) := by
  have hempty : command.isEmpty = false := by
    cases command with
    | nil => exact absurd rfl hne
    | cons a rest => rfl
  constructor
  · intro site hins hsite hproj
    unfold DockerExecutor.execute
    simp only [hempty, Bool.false_eq_true, if_false, hv, hins]
    rw [if_pos ⟨hproj, hsite⟩]
  · intro hins
    unfold DockerExecutor.execute
    simp only [hempty, Bool.false_eq_true, if_false, hv, hins]
    exact runPhase_ran_warned env _ user command true

/-- Witness for C2: with label "othersite" and project "myproj" the call is
denied with no execution; with an unreadable label it warns and runs. -/
theorem C2_witness :
    ([Value.str "ls"] ≠ ([] : List Value)) ∧
    validateArgs 0 [Value.str "ls"] = Option.none ∧
    DockerExecutor.execute env1 "myproj" [Value.str "ls"] Option.none
        "www-data" =
      ⟨Option.none, false,
        .error (.permissionDenied "ddev-myproj-web" "othersite" "myproj")⟩ ∧
    (DockerExecutor.execute env0 "myproj" [Value.str "ls"] Option.none
        "www-data").warned = true ∧
    (DockerExecutor.execute env0 "myproj" [Value.str "ls"] Option.none
        "www-data").ran.isSome = true :=
  ⟨by simp, rfl,
    (C2_ownership_check_fail_closed_and_fail_open env1 "myproj" "www-data"
        Option.none [Value.str "ls"] (by simp) rfl).1 "othersite" rfl
      (by decide) (by decide),
    (C2_ownership_check_fail_closed_and_fail_open env0 "myproj" "www-data"
        Option.none [Value.str "ls"] (by simp) rfl).2 rfl⟩

/-- C3: `ToolRegistry.execute_tool` is a total function into text: an
unknown tool name yields a textual unknown-tool result, a validation failure
yields a textual validation error without invoking execute, and an exception
raised during execution is converted to a textual error carrying the
exception's message. -/
theorem C3_execute_tool_total_dispatch
    (env : Env) (reg : ToolRegistry.Registry) (name : String)
    (arguments : List (String × Value)) :
    (ToolRegistry.lookupExec reg name = Option.none →
      ToolRegistry.execute_tool env reg name arguments =
        ("Error: Unknown tool \x27" ++ name ++ "\x27", false)) ∧
    (∀ ex, ToolRegistry.lookupExec reg name = some ex →
      (ToolRegistry.validateOf env ex arguments).1 = false →
      ToolRegistry.execute_tool env reg name arguments =
        ("Validation error: " ++
          pyStr (ToolRegistry.validateOf env ex arguments).2, false)) ∧
    (∀ c, ToolRegistry.lookupExec reg name = some (.command c) →
      (ToolRegistry.validateOf env (.command c) arguments).1 = true →
      ∀ e, CommandToolExecutor.execute env reg.project c arguments = .error e →
        ToolRegistry.execute_tool env reg name arguments =
          ("Error: " ++ pyExcStr e, true)) ∧
    (∀ m, ToolRegistry.lookupExec reg name = some (.mcpServer m) →
      ToolRegistry.execute_tool env reg name arguments =
        (MCPServerToolExecutor.execute env m arguments
          (ToolRegistry.remoteNameOf (ToolRegistry.lookupConfig reg name)),
         true)) := by
  refine ⟨?_, ?_, ?_, ?_⟩
  · intro h
    unfold ToolRegistry.execute_tool
    rw [h]
  · intro ex hex hval
    unfold ToolRegistry.execute_tool
    rw [hex]
    simp only [hval, Bool.false_eq_true, not_false_eq_true, if_true]
  · intro c hex hval e herr
    unfold ToolRegistry.execute_tool
    rw [hex]
    simp only [ToolRegistry.validateOf] at hval
    simp [ToolRegistry.validateOf, hval, herr]
  · intro m hex
    unfold ToolRegistry.execute_tool
    rw [hex]
    simp [ToolRegistry.validateOf]

/-- Witness for C3: an unknown tool gives the textual unknown-tool result,
and a PermissionDenied raised during execution is converted to text. -/
theorem C3_witness :
    ToolRegistry.lookupExec reg1 "nope" = Option.none ∧
    ToolRegistry.execute_tool env1 reg1 "nope" [] =
      ("Error: Unknown tool \x27nope\x27", false) ∧
    CommandToolExecutor.execute env1 "p" cte0 [] =
      .error (.permissionDenied "ddev-p-web" "othersite" "p") ∧
    ToolRegistry.execute_tool env1 reg1 "sh" [] =
      ("Error: Container \x27ddev-p-web\x27 belongs to \x27othersite\x27, " ++
        "not \x27p\x27", true) :=
  ⟨rfl,
    (C3_execute_tool_total_dispatch env1 reg1 "nope" []).1 rfl,
    rfl,
    (C3_execute_tool_total_dispatch env1 reg1 "sh" []).2.2.1 cte0 rfl rfl
      (.permissionDenied "ddev-p-web" "othersite" "p") rfl⟩

/-- C4 (amended): `MCPServerToolExecutor.execute` selects the request shape
in strict priority order: a known (truthy) remote tool name always produces
the JSON-RPC `tools/call` envelope regardless of a `method` key in the
arguments; otherwise a `method` key bound to a truthy value produces a
direct JSON-RPC request with the arguments' `params`; otherwise (no
`method` key, or a falsy `method` value) the raw arguments (or an empty
body when forwarding is disabled) are sent.  The amendment relative to the
claim is the truthiness condition: a `method` key that is merely present
does not select the passthrough shape (see the counterexample). -/
theorem C4_request_shape_priority (self : MCPServerToolExecutor)
    (arguments : List (String × Value)) (tool_name : Option String) :
    (∀ n, tool_name = some n → n ≠ "" →
      MCPServerToolExecutor.payloadFor self arguments tool_name =
        .dict [("jsonrpc", .str "2.0"), ("method", .str "tools/call"),
               ("params", .dict [("name", .str n),
                                 ("arguments", .dict arguments)]),
               ("id", .num 1)]) ∧
    (MCPServerToolExecutor.toolNameTruthy tool_name = false →
      ∀ m, dictGet arguments "method" = some m → pyTruthy m = true →
        MCPServerToolExecutor.payloadFor self arguments tool_name =
          .dict [("jsonrpc", .str "2.0"), ("method", m),
                 ("params", (dictGet arguments "params").getD (.dict [])),
                 ("id", .num 1)]) ∧
    (MCPServerToolExecutor.toolNameTruthy tool_name = false →
      dictGet arguments "method" = Option.none →
      MCPServerToolExecutor.payloadFor self arguments tool_name =
        (if self.forward_args then .dict arguments else .dict [])) ∧
    (MCPServerToolExecutor.toolNameTruthy tool_name = false →
      ∀ m, dictGet arguments "method" = some m → pyTruthy m = false →
        MCPServerToolExecutor.payloadFor self arguments tool_name =
          (if self.forward_args then .dict arguments else .dict [])) := by
  refine ⟨?_, ?_, ?_, ?_⟩
  · intro n hn hne
    subst hn
    simp [MCPServerToolExecutor.payloadFor, MCPServerToolExecutor.toolNameTruthy,
      hne]
  · intro hfalse m hm htruthy
    simp [MCPServerToolExecutor.payloadFor, hfalse, hm, htruthy]
  · intro hfalse hm
    simp [MCPServerToolExecutor.payloadFor, hfalse, hm]
  · intro hfalse m hm hfalsy
    simp [MCPServerToolExecutor.payloadFor, hfalse, hm, hfalsy]

/-- Counterexample for C4 as stated: the arguments `{"method": ""}` do
contain a `method` key, yet with no tool name the code sends the raw
arguments object (legacy mode), not a direct JSON-RPC request with that
method. -/
theorem C4_counterexample :
    MCPServerToolExecutor.payloadFor { server_url := "u" }
        [("method", Value.str "")] Option.none
      = .dict [("method", Value.str "")] ∧
    MCPServerToolExecutor.payloadFor { server_url := "u" }
        [("method", Value.str "")] Option.none
      ≠ .dict [("jsonrpc", .str "2.0"), ("method", .str ""),
               ("params", (dictGet [("method", Value.str "")] "params").getD
                  (.dict [])),
               ("id", .num 1)] := by
  constructor
  · rfl
  · intro h
    rw [show MCPServerToolExecutor.payloadFor { server_url := "u" }
        [("method", Value.str "")] Option.none
      = .dict [("method", Value.str "")] from rfl] at h
    simp at h

/-- Witness for C4: an explicit tool name wins over an incidental `method`
key; without a tool name, `method = "ping"` gives a direct JSON-RPC
request. -/
theorem C4_witness :
    MCPServerToolExecutor.payloadFor { server_url := "u" }
        [("method", .str "ping"), ("params", .dict [])] (some "t") =
      .dict [("jsonrpc", .str "2.0"), ("method", .str "tools/call"),
             ("params", .dict [("name", .str "t"),
               ("arguments", .dict [("method", .str "ping"),
                                    ("params", .dict [])])]),
             ("id", .num 1)] ∧
    MCPServerToolExecutor.payloadFor { server_url := "u" }
        [("method", .str "ping"), ("params", .dict [])] Option.none =
      .dict [("jsonrpc", .str "2.0"), ("method", .str "ping"),
             ("params", .dict []), ("id", .num 1)] :=
  ⟨(C4_request_shape_priority { server_url := "u" }
      [("method", .str "ping"), ("params", .dict [])] (some "t")).1 "t" rfl
      (by decide),
   (C4_request_shape_priority { server_url := "u" }
      [("method", .str "ping"), ("params", .dict [])] Option.none).2.1 rfl
      (.str "ping") rfl (by decide)⟩

/-- C5: with an `auto:uid-from-path` user string, the default target path is
`/var/www/html`; a successful in-container stat (exit 0) makes the stripped
stdout the execution user; any non-zero exit or exception during the lookup
falls back to the fixed default user "www-data" (the resolver is a total
function and never raises). -/
theorem C5_auto_uid_fallback (env : Env) (project : String)
    (self : CommandToolExecutor)
    (hauto : startswith self.user "auto:uid-from-path" = true) :
    CommandToolExecutor.resolveUserTarget "auto:uid-from-path"
        = "/var/www/html" ∧
    (∀ out err,
      (DockerExecutor.execute env project
          [.str "/bin/sh", .str "-c",
           .str ("stat -c %u " ++ CommandToolExecutor.resolveUserTarget self.user)]
          self.container "root").result = .ok (out, err, 0) →
      CommandToolExecutor.resolve_user env project self = pyStrip out) ∧
    (∀ out err rc, rc ≠ 0 →
      (DockerExecutor.execute env project
          [.str "/bin/sh", .str "-c",
           .str ("stat -c %u " ++ CommandToolExecutor.resolveUserTarget self.user)]
          self.container "root").result = .ok (out, err, rc) →
      CommandToolExecutor.resolve_user env project self = "www-data") ∧
    (∀ e,
      (DockerExecutor.execute env project
          [.str "/bin/sh", .str "-c",
           .str ("stat -c %u " ++ CommandToolExecutor.resolveUserTarget self.user)]
          self.container "root").result = .error e →
      CommandToolExecutor.resolve_user env project self = "www-data") := by
  have hne : ¬ self.user = "" := by
    intro h
    rw [h] at hauto
    exact absurd hauto (by decide)
  refine ⟨rfl, ?_, ?_, ?_⟩
  · intro out err hres
    simp [CommandToolExecutor.resolve_user, hne, hauto, hres]
  · intro out err rc hrc hres
    simp [CommandToolExecutor.resolve_user, hne, hauto, hres, hrc]
  · intro e hres
    simp [CommandToolExecutor.resolve_user, hne, hauto, hres]

/-- Witness for C5: `cte1` uses the bare directive; under `env0` the stat
succeeds with stdout "1000\n" and the resolved user is "1000". -/
theorem C5_witness :
    startswith cte1.user "auto:uid-from-path" = true ∧
    CommandToolExecutor.resolveUserTarget "auto:uid-from-path"
        = "/var/www/html" ∧
    CommandToolExecutor.resolve_user env0 "p" cte1 = "1000" :=
  ⟨by decide,
   (C5_auto_uid_fallback env0 "p" cte1 (by decide)).1,
   (C5_auto_uid_fallback env0 "p" cte1 (by decide)).2.1 "1000\n" "" rfl⟩

theorem dictGet_append (xs ys : List (String × Value)) (k : String) :
    dictGet (xs ++ ys) k =
      match dictGet xs k with
      | some v => some v
      | Option.none => dictGet ys k := by
  induction xs with
  | nil => rfl
  | cons kv rest ih =>
    obtain ⟨k', v⟩ := kv
    by_cases h : k' = k <;> simp [dictGet, h, ih]

theorem dictGet_override_map (d a : List (String × Value)) (k : String) :
    dictGet (d.map (fun kv => (kv.1, (dictGet a kv.1).getD kv.2))) k =
      (dictGet d k).map (fun v => (dictGet a k).getD v) := by
  induction d with
  | nil => rfl
  | cons kv rest ih =>
    obtain ⟨k', v⟩ := kv
    by_cases h : k' = k
    · subst h
      simp [dictGet]
    · simp [dictGet, h, ih]

theorem dictGet_filter_of_not_default (d a : List (String × Value)) (k : String)
    (h : dictGet d k = Option.none) :
    dictGet (a.filter (fun kv => (dictGet d kv.1).isNone)) k = dictGet a k := by
  induction a with
  | nil => rfl
  | cons kv rest ih =>
    obtain ⟨k', v⟩ := kv
    by_cases hk : k' = k
    · subst hk
      simp [List.filter, h, dictGet]
    · cases hd : (dictGet d k').isNone <;> simp [List.filter, hd, dictGet, hk, ih]

/-- C6: the effective argument mapping of a command-tool call is the merge
of configured defaults and caller arguments where the caller wins on every
key present in both, and defaults absent from the caller arguments keep
their configured value. -/
theorem C6_caller_wins_merge (self : CommandToolExecutor)
    (arguments : List (String × Value)) (k : String) :
    ((dictGet arguments k).isSome = true →
      dictGet (CommandToolExecutor.effectiveArgs self arguments) k
        = dictGet arguments k) ∧
    (dictGet arguments k = Option.none →
      dictGet (CommandToolExecutor.effectiveArgs self arguments) k
        = dictGet self.default_args k) := by
  constructor
  · intro hsome
    obtain ⟨w, hw⟩ := Option.isSome_iff_exists.mp hsome
    unfold CommandToolExecutor.effectiveArgs dictMerge
    rw [dictGet_append, dictGet_override_map]
    cases hd : dictGet self.default_args k with
    | none => simp [dictGet_filter_of_not_default self.default_args arguments k hd]
    | some dv => simp [hw]
  · intro hnone
    unfold CommandToolExecutor.effectiveArgs dictMerge
    rw [dictGet_append, dictGet_override_map]
    cases hd : dictGet self.default_args k with
    | none =>
      simp [dictGet_filter_of_not_default self.default_args arguments k hd, hnone]
    | some dv => simp [hnone]

/-- Witness for C6 on defaults `{x: "ok"}` with caller `{x: "no", y: 1}`:
the caller wins on `x`, and with caller `{}` the default for `x` remains. -/
theorem C6_witness :
    (dictGet [("x", Value.str "no"), ("y", Value.num 1)] "x").isSome = true ∧
    dictGet (CommandToolExecutor.effectiveArgs cte0
        [("x", Value.str "no"), ("y", Value.num 1)]) "x" =
      dictGet [("x", Value.str "no"), ("y", Value.num 1)] "x" ∧
    dictGet ([] : List (String × Value)) "x" = Option.none ∧
    dictGet (CommandToolExecutor.effectiveArgs cte0 []) "x" =
      dictGet cte0.default_args "x" :=
  ⟨rfl,
   (C6_caller_wins_merge cte0 [("x", Value.str "no"), ("y", Value.num 1)] "x").1
     rfl,
   rfl,
   (C6_caller_wins_merge cte0 [] "x").2 rfl⟩

/-- C7: when the pattern rules pass, `validate_arguments` computes the
required placeholders as the template's `{name}` placeholders minus the
configured default keys, succeeds when none of them is missing from the
caller arguments, and otherwise fails naming exactly the required
placeholders absent from the caller arguments. -/
theorem C7_required_placeholder_detection (reSearch : Value → String → Bool)
    (self : CommandToolExecutor) (arguments : List (String × Value))
    (hrules : (CommandToolExecutor.validate_rules reSearch
        self.validation_rules (pyStr (.dict arguments))).1 = true) :
    (CommandToolExecutor.missingOf self arguments = [] →
      CommandToolExecutor.validate_arguments reSearch self arguments
        = (true, .str "")) ∧
    (CommandToolExecutor.missingOf self arguments ≠ [] →
      CommandToolExecutor.validate_arguments reSearch self arguments
        = (false, .str ("Missing: " ++
            joinComma (CommandToolExecutor.missingOf self arguments)))) ∧
    (∀ p, p ∈ CommandToolExecutor.missingOf self arguments ↔
      (p ∈ CommandToolExecutor.placeholdersOf self.command_template ∧
        dictGet self.default_args p = Option.none ∧
        dictGet arguments p = Option.none)) := by
  refine ⟨?_, ?_, ?_⟩
  · intro hmiss
    simp [CommandToolExecutor.validate_arguments, hrules, hmiss]
  · intro hmiss
    simp [CommandToolExecutor.validate_arguments, hrules, hmiss]
  · intro p
    simp only [CommandToolExecutor.missingOf, CommandToolExecutor.requiredOf,
      List.mem_dedup, List.mem_filter, Option.isNone_iff_eq_none]
    tauto

/-- A concrete command tool for C7: template `{a}{b}` with default `a`. -/
def cte2 : CommandToolExecutor :=
  { command_template := "\x7ba\x7d\x7bb\x7d", container := Option.none,
    user := "www-data", default_args := [("a", .num 1)],
    disallowed_commands := [], validation_rules := [] }

/-- Witness for C7: template `{a}{b}`, defaults `{a: 1}`, caller arguments
`{}` reports exactly `b` as missing. -/
theorem C7_witness :
    (CommandToolExecutor.validate_rules (fun _ _ => false)
        cte2.validation_rules (pyStr (.dict []))).1 = true ∧
    CommandToolExecutor.missingOf cte2 [] = ["b"] ∧
    CommandToolExecutor.validate_arguments (fun _ _ => false) cte2 []
      = (false, .str "Missing: b") ∧
    ("b" ∈ CommandToolExecutor.missingOf cte2 [] ↔
      ("b" ∈ CommandToolExecutor.placeholdersOf cte2.command_template ∧
        dictGet cte2.default_args "b" = Option.none ∧
        dictGet ([] : List (String × Value)) "b" = Option.none)) :=
  ⟨rfl, rfl,
   (C7_required_placeholder_detection (fun _ _ => false) cte2 [] rfl).2.1
     (by decide),
   (C7_required_placeholder_detection (fun _ _ => false) cte2 [] rfl).2.2 "b"⟩

/-- C8: response extraction of the remote proxy follows the strict priority
order `result`, then first `content` entry's `text`, then formatted
`error`, then the stringified raw body; in particular a body carrying both
`result` and `error` yields the `result`. -/
theorem C8_response_extraction_priority (kvs : List (String × Value)) :
    (∀ r, dictGet kvs "result" = some r →
      MCPServerToolExecutor.extractResponse (.dict kvs) = .ok (pyStr r)) ∧
    (dictGet kvs "result" = Option.none →
      ∀ ckvs rest, dictGet kvs "content" = some (.list (.dict ckvs :: rest)) →
      ∀ t, dictGet ckvs "text" = some t →
      MCPServerToolExecutor.extractResponse (.dict kvs) = .ok (pyStr t)) ∧
    (dictGet kvs "result" = Option.none →
      (dictGet kvs "content" = Option.none ∨
        dictGet kvs "content" = some (.list [])) →
      ∀ ekvs, dictGet kvs "error" = some (.dict ekvs) →
      ∀ m, dictGet ekvs "message" = some m →
      MCPServerToolExecutor.extractResponse (.dict kvs)
        = .ok ("RPC Error: " ++ pyStr m)) ∧
    (dictGet kvs "result" = Option.none →
      (dictGet kvs "content" = Option.none ∨
        dictGet kvs "content" = some (.list [])) →
      dictGet kvs "error" = Option.none →
      MCPServerToolExecutor.extractResponse (.dict kvs)
        = .ok (pyStr (.dict kvs))) := by
  refine ⟨?_, ?_, ?_, ?_⟩
  · intro r hr
    simp [MCPServerToolExecutor.extractResponse, hr]
  · intro hr ckvs rest hc t ht
    simp [MCPServerToolExecutor.extractResponse, hr, hc, ht]
  · intro hr hc ekvs he m hm
    rcases hc with hc | hc <;>
      simp [MCPServerToolExecutor.extractResponse, hr, hc, he, hm]
  · intro hr hc he
    rcases hc with hc | hc <;>
      simp [MCPServerToolExecutor.extractResponse, hr, hc, he]

/-- Witness for C8: a response carrying both `result` and `error` yields the
stringified `result`. -/
theorem C8_witness :
    dictGet [("result", Value.str "ok"),
             ("error", Value.dict [("message", Value.str "bad")])] "result"
      = some (.str "ok") ∧
    MCPServerToolExecutor.extractResponse
        (.dict [("result", Value.str "ok"),
                ("error", Value.dict [("message", Value.str "bad")])])
      = .ok "ok" :=
  ⟨rfl,
   (C8_response_extraction_priority
       [("result", Value.str "ok"),
        ("error", Value.dict [("message", Value.str "bad")])]).1
     (.str "ok") rfl⟩

theorem normalizePathsList_eq_map (hr cr : String) (xs : List Value) :
    CommandToolExecutor.normalizePathsList hr cr xs =
      xs.map (CommandToolExecutor.normalize_paths hr cr) := by
  induction xs with
  | nil => rfl
  | cons v vs ih => simp [CommandToolExecutor.normalizePathsList, ih]

theorem normalizePathsDict_eq_map (hr cr : String)
    (kvs : List (String × Value)) :
    CommandToolExecutor.normalizePathsDict hr cr kvs =
      kvs.map (fun kv => (kv.1, CommandToolExecutor.normalize_paths hr cr kv.2)) := by
  induction kvs with
  | nil => rfl
  | cons kv rest ih =>
    obtain ⟨k, v⟩ := kv
    simp [CommandToolExecutor.normalizePathsDict, ih]

theorem not_startswith_self_slash (hr : String) :
    startswith hr (hr ++ "/") = false := by
  rw [Bool.eq_false_iff]
  intro h
  have hp := List.isPrefixOf_iff_prefix.mp h
  have := hp.length_le
  simp [startswith, String.data_append] at this

/-- C9: path normalization rewrites a string iff it begins with the host
root followed by "/" (replacing that prefix with the container root and
keeping the remainder), leaves a string exactly equal to the host root and
all non-string scalars unchanged, and applies elementwise through nested
lists and mapping values. -/
theorem C9_path_normalization (hr cr s : String) (n : Int) (b : Bool)
    (xs : List Value) (kvs : List (String × Value)) :
    (startswith s (hr ++ "/") = true →
      CommandToolExecutor.normalize_paths hr cr (.str s)
        = .str (cr ++ s.drop hr.length)) ∧
    (startswith s (hr ++ "/") = false →
      CommandToolExecutor.normalize_paths hr cr (.str s) = .str s) ∧
    (CommandToolExecutor.normalize_paths hr cr (.str hr) = .str hr) ∧
    (CommandToolExecutor.normalize_paths hr cr (.num n) = .num n) ∧
    (CommandToolExecutor.normalize_paths hr cr (.bool b) = .bool b) ∧
    (CommandToolExecutor.normalize_paths hr cr .none = .none) ∧
    (CommandToolExecutor.normalize_paths hr cr (.list xs)
      = .list (xs.map (CommandToolExecutor.normalize_paths hr cr))) ∧
    (CommandToolExecutor.normalize_paths hr cr (.dict kvs)
      = .dict (kvs.map
          (fun kv => (kv.1, CommandToolExecutor.normalize_paths hr cr kv.2)))) := by
  refine ⟨?_, ?_, ?_, ?_, ?_, ?_, ?_, ?_⟩
  · intro h
    simp [CommandToolExecutor.normalize_paths, h]
  · intro h
    simp [CommandToolExecutor.normalize_paths, h]
  · simp [CommandToolExecutor.normalize_paths, not_startswith_self_slash hr]
  · rfl
  · rfl
  · rfl
  · simp [CommandToolExecutor.normalize_paths, normalizePathsList_eq_map]
  · simp [CommandToolExecutor.normalize_paths, normalizePathsDict_eq_map]

/-- Witness for C9 at the default roots: "/workspace/a" is rewritten,
"/workspace" and "/workspaces/a" are not. -/
theorem C9_witness :
    startswith "/workspace/a" ("/workspace" ++ "/") = true ∧
    CommandToolExecutor.normalize_paths "/workspace" "/var/www/html"
        (.str "/workspace/a") = .str "/var/www/html/a" ∧
    startswith "/workspaces/a" ("/workspace" ++ "/") = false ∧
    CommandToolExecutor.normalize_paths "/workspace" "/var/www/html"
        (.str "/workspaces/a") = .str "/workspaces/a" ∧
    CommandToolExecutor.normalize_paths "/workspace" "/var/www/html"
        (.str "/workspace") = .str "/workspace" :=
  ⟨by decide,
   (C9_path_normalization "/workspace" "/var/www/html" "/workspace/a" 0 false
       [] []).1 (by decide),
   by decide,
   (C9_path_normalization "/workspace" "/var/www/html" "/workspaces/a" 0 false
       [] []).2.1 (by decide),
   (C9_path_normalization "/workspace" "/var/www/html" "/workspace" 0 false
       [] []).2.2.1⟩

/-- C10: with no remote tool name bound, a `method` key bound to a falsy
value (empty string, None, ...) is treated as absent: the call falls through
to legacy mode (raw-arguments body, or empty body when forwarding is
disabled), not to a JSON-RPC passthrough. -/
theorem C10_falsy_method_goes_legacy (self : MCPServerToolExecutor)
    (arguments : List (String × Value)) (m : Value)
    (hm : dictGet arguments "method" = some m) (hf : pyTruthy m = false) :
    MCPServerToolExecutor.payloadFor self arguments Option.none =
      (if self.forward_args then .dict arguments else .dict []) := by
  simp [MCPServerToolExecutor.payloadFor, MCPServerToolExecutor.toolNameTruthy,
    hm, hf]

/-- Witness for C10: `method = ""` with forwarding enabled sends the raw
arguments object. -/
theorem C10_witness :
    dictGet [("method", Value.str "")] "method" = some (.str "") ∧
    pyTruthy (.str "") = false ∧
    MCPServerToolExecutor.payloadFor { server_url := "u" }
        [("method", Value.str "")] Option.none
      = .dict [("method", Value.str "")] :=
  ⟨rfl, by decide,
   C10_falsy_method_goes_legacy { server_url := "u" }
     [("method", Value.str "")] (.str "") rfl (by decide)⟩

end Claims

end DdevAgents
